import Mathlib

/-!
Verification of the tvb-multiscale interface-layer specification against a
shallow embedding of the repository's code.

The embedding covers:
* `tvb_multiscale/core/interfaces/base/io.py` — the Communicator family
  (`Sender`/`Receiver`, `SetToTransformer`/`GetFromTransformer`,
  `NPZWriter`/`NPZReader`);
* `tvb_multiscale/tvb_annarchy/annarchy_models/devices.py` — the ANNarchy
  output-device family (`ANNarchyOutputDevice`, `ANNarchySpikeDetector`);
* `examples/tvb_nest/notebooks/cerebellum/scripts/sbi_script.py` — the SBI
  batch-orchestration helpers (`priors_samples_per_batch`,
  `load_posterior_samples_all_runs`, `load_posterior_samples_all_Gs`).

Python-level behaviour that the code relies on (numpy `savez`/`load`
semantics, dict iteration, `tuple` construction, attribute lookup, name
resolution) is modelled explicitly; each such modelling definition carries a
comment stating the Python fact it encodes.
-/

/-- Python exception kinds relevant to the embedded code, plus the
`ShapeMismatch` kind named by the specification's error taxonomy (which no
code path raises).  `ioError` stands for `OSError` and its subclasses
(`FileNotFoundError`); `badZipFile` is `zipfile.BadZipFile`, which is *not*
an `OSError`/`IOError` subclass; `valueError` is `ValueError`. -/
inductive PyErr where
  | typeError
  | ioError
  | keyError
  | indexError
  | attributeError
  | nameError
  | valueError
  | badZipFile
  | shapeMismatch
deriving DecidableEq, Repr

/-- A numpy array: a shape together with its (flattened) entries.  Entries are
rationals, so storage and comparison are exact for both integer-valued and
float-valued arrays. -/
structure PyArray where
  shape : List Nat
  data : List ℚ
deriving DecidableEq, Repr

/-- A `.npz` archive as `np.savez` / `np.savez_compressed` produce it: a zip
archive of named member arrays, with a flag recording whether the members are
deflate-compressed (`np.savez` stores them uncompressed; only
`np.savez_compressed` compresses). -/
structure NPZFile where
  entries : List (String × PyArray)
  compressed : Bool
deriving DecidableEq, Repr

/-- A file on disk as the transports see it: either a well-formed `.npz`
archive, or bytes that do not form a valid zip archive (a corrupt file). -/
inductive DiskFile where
  | npz (f : NPZFile)
  | corrupt
deriving DecidableEq, Repr

/-- The filesystem visible to the file transports: an association of paths to
files; the most recent write of a path shadows older ones. -/
abbrev FileSystem := List (String × DiskFile)

/-- Python `p.endswith(s)`: the last `len(s)` characters of `p` equal `s`
(computed structurally over the character lists). -/
def pyEndsWith (p s : String) : Bool :=
  p.data.reverse.take s.data.length == s.data.reverse

/-- Per numpy, `np.savez(path, ...)` appends the extension `.npz` to the file
name when the given path does not already end in it. -/
def resolveNpzPath (p : String) : String :=
  if pyEndsWith p ".npz" then p else p ++ ".npz"

/-- `np.savez(path, time=t, values=v)`: writes an uncompressed zip archive
holding exactly the two named member arrays, at the resolved path. -/
def np_savez (fs : FileSystem) (path : String) (time values : PyArray) : FileSystem :=
  (resolveNpzPath path,
    DiskFile.npz ⟨[("time", time), ("values", values)], false⟩) :: fs

/-- `np.savez_compressed(path, time=t, values=v)`: identical archive but with
compressed members.  The repository's `NPZWriter` does not call it; it is
embedded only to make the compressed/uncompressed distinction explicit. -/
def np_savez_compressed (fs : FileSystem) (path : String) (time values : PyArray) : FileSystem :=
  (resolveNpzPath path,
    DiskFile.npz ⟨[("time", time), ("values", values)], true⟩) :: fs

/-- `np.load(path)`: opens the file at exactly the given path (no extension is
appended on reading).  A missing file raises `FileNotFoundError`, a subclass
of `OSError`/`IOError`; a file that is not a valid zip archive raises
`zipfile.BadZipFile`, which is not an `OSError`/`IOError`. -/
def np_load (fs : FileSystem) (path : String) : Except PyErr NPZFile :=
  match fs.lookup path with
  | some (DiskFile.npz f) => Except.ok f
  | some DiskFile.corrupt => Except.error PyErr.badZipFile
  | none => Except.error PyErr.ioError

/-- Member access `datafile[name]` on a loaded `.npz` archive; a missing
member name raises `KeyError`. -/
def NPZFile.member (f : NPZFile) (name : String) : Except PyErr PyArray :=
  match f.entries.lookup name with
  | some a => Except.ok a
  | none => Except.error PyErr.keyError

/-- `NPZWriter.send(data)` (io.py lines 219-220):
`np.savez(self.target, time=data[0], values=data[1])`.
The argument is `some (t, v)` for a two-element sequence `[t, v]` and `none`
for Python `None`; subscripting `None` raises `TypeError`.  No shape check of
any kind is performed before writing. -/
def NPZWriter.send (target : String) (data : Option (PyArray × PyArray))
    (fs : FileSystem) : Except PyErr FileSystem :=
  match data with
  | none => Except.error PyErr.typeError
  | some d => Except.ok (np_savez fs target d.1 d.2)

/-- `NPZReader.receive()` (io.py lines 232-237): loads `self.source` and
returns the two-element sequence `[datafile["time"], datafile["values"]]`. -/
def NPZReader.receive (src : String) (fs : FileSystem) :
    Except PyErr (PyArray × PyArray) := do
  let f ← np_load fs src
  let t ← f.member "time"
  let v ← f.member "values"
  return (t, v)

/-- A concrete 1-D integer-valued time array used in counterexamples and
witnesses. -/
def sampleTime : PyArray := ⟨[3], [0, 1, 2]⟩

/-- A concrete values array (3×1) used in counterexamples and witnesses. -/
def sampleValues : PyArray := ⟨[3, 1], [1, 2, 3]⟩

/-- A values array whose leading dimension (2) is inconsistent with
`sampleTime`'s length (3): a shape-mismatched payload. -/
def mismatchedValues : PyArray := ⟨[2, 1], [1, 2]⟩

/-- Claim C1 counterexample: writing to the target path `"data"` (which does
not end in `.npz`) stores the archive at `"data.npz"`, so a reader whose
source is the same path `"data"` fails with an IO error instead of returning
the pair — the round trip does not reproduce the arrays for every path. -/
theorem npz_roundtrip_fails_without_npz_suffix :
    (NPZWriter.send "data" (some (sampleTime, sampleValues)) []).bind
        (fun fs => NPZReader.receive "data" fs) = Except.error PyErr.ioError
    ∧ (Except.error PyErr.ioError : Except PyErr (PyArray × PyArray))
        ≠ Except.ok (sampleTime, sampleValues) := by
  refine ⟨rfl, fun h => ?_⟩
  exact Except.noConfusion h

/-- Claim C1 (amended): for every target path that already ends in `.npz`,
sending a (time, values) pair with `NPZWriter.send` and then receiving with
`NPZReader.receive` from the same path returns exactly the original pair. -/
theorem npz_roundtrip_exact (target : String) (t v : PyArray) (fs : FileSystem)
    (h : pyEndsWith target ".npz" = true) :
    (NPZWriter.send target (some (t, v)) fs).bind
        (fun fs2 => NPZReader.receive target fs2) = Except.ok (t, v) := by
  simp only [NPZWriter.send, np_savez, resolveNpzPath, h, if_true, Except.bind,
    NPZReader.receive, np_load, List.lookup_cons_self, NPZFile.member]
  rfl

/-- Claim C1 witness: the round trip evaluated at the concrete path
`"roundtrip.npz"` and the concrete sample arrays. -/
theorem npz_roundtrip_exact_witness :
    (NPZWriter.send "roundtrip.npz" (some (sampleTime, sampleValues)) []).bind
        (fun fs2 => NPZReader.receive "roundtrip.npz" fs2)
      = Except.ok (sampleTime, sampleValues) :=
  npz_roundtrip_exact "roundtrip.npz" sampleTime sampleValues [] (by decide)

/-- Claim C3 counterexample: sending data whose values shape is inconsistent
with the time length succeeds (no check is performed, hence no `ShapeMismatch`
is ever raised); sending `None` fails with `TypeError`, which is not the
`ShapeMismatch` kind the claim requires; and reading a corrupt source fails
with `zipfile.BadZipFile`, which is not an `IOError` kind. -/
theorem send_never_raises_shape_mismatch :
    (NPZWriter.send "a.npz" (some (sampleTime, mismatchedValues)) []).isOk = true
    ∧ NPZWriter.send "a.npz" none [] = Except.error PyErr.typeError
    ∧ PyErr.typeError ≠ PyErr.shapeMismatch
    ∧ NPZReader.receive "bad.npz" [("bad.npz", DiskFile.corrupt)]
        = Except.error PyErr.badZipFile
    ∧ PyErr.badZipFile ≠ PyErr.ioError := by
  refine ⟨rfl, rfl, by decide, rfl, by decide⟩

/-- Claim C3 (amended): sending `None` fails with a `TypeError` (subscripting
`None`), not a `ShapeMismatch`; shape-inconsistent data is accepted without
any check; reading a source path with no file behind it fails with
`FileNotFoundError` — an `IOError` kind — and reading a corrupt source fails
with `zipfile.BadZipFile` — not an `IOError` kind; in both cases the error is
returned to the caller, never swallowed. -/
theorem send_receive_error_kinds (path : String) (t v : PyArray)
    (fs : FileSystem) :
    NPZWriter.send path none fs = Except.error PyErr.typeError
    ∧ (NPZWriter.send path (some (t, v)) fs).isOk = true
    ∧ (fs.lookup path = none →
        NPZReader.receive path fs = Except.error PyErr.ioError)
    ∧ (fs.lookup path = some DiskFile.corrupt →
        NPZReader.receive path fs = Except.error PyErr.badZipFile) := by
  refine ⟨rfl, rfl, ?_, ?_⟩
  · intro h
    simp only [NPZReader.receive, np_load, h]
    rfl
  · intro h
    simp only [NPZReader.receive, np_load, h]
    rfl

/-- Claim C3 witness: the amended error-kind statement applied at the path
`"missing.npz"` over the empty filesystem (missing file) and at the path
`"bad.npz"` over a filesystem holding a corrupt file there, each hypothesis
discharged by computation. -/
theorem send_receive_error_kinds_witness :
    NPZWriter.send "missing.npz" none [] = Except.error PyErr.typeError
    ∧ (NPZWriter.send "missing.npz"
        (some (sampleTime, mismatchedValues)) []).isOk = true
    ∧ NPZReader.receive "missing.npz" [] = Except.error PyErr.ioError
    ∧ NPZReader.receive "bad.npz" [("bad.npz", DiskFile.corrupt)]
        = Except.error PyErr.badZipFile :=
  ⟨(send_receive_error_kinds "missing.npz" sampleTime mismatchedValues []).1,
    (send_receive_error_kinds "missing.npz" sampleTime mismatchedValues []).2.1,
    (send_receive_error_kinds "missing.npz" sampleTime
      mismatchedValues []).2.2.1 rfl,
    (send_receive_error_kinds "bad.npz" sampleTime mismatchedValues
      [("bad.npz", DiskFile.corrupt)]).2.2.2 rfl⟩

/-- Claim C8 counterexample: the archive `NPZWriter.send` persists holds the
two named arrays but is written by `np.savez`, i.e. with uncompressed
members, so the "single compressed archive" part of the claim is false. -/
theorem npz_archive_is_uncompressed :
    List.lookup "a.npz" (np_savez [] "a.npz" sampleTime sampleValues)
      = some (DiskFile.npz
          ⟨[("time", sampleTime), ("values", sampleValues)], false⟩)
    ∧ false ≠ true := by
  refine ⟨by decide, by decide⟩

/-- Claim C8 (amended): every `NPZWriter.send` call persists exactly two named
arrays — `time` holding `data[0]` and `values` holding `data[1]` — in a single
uncompressed `.npz` zip archive at the resolved target path, and
`NPZReader.receive` on that path reads the pair back by those names. -/
theorem npz_send_persists_named_pair (target : String) (t v : PyArray)
    (fs : FileSystem) :
    NPZWriter.send target (some (t, v)) fs
      = Except.ok ((resolveNpzPath target,
          DiskFile.npz ⟨[("time", t), ("values", v)], false⟩) :: fs)
    ∧ NPZReader.receive (resolveNpzPath target)
        ((resolveNpzPath target,
          DiskFile.npz ⟨[("time", t), ("values", v)], false⟩) :: fs)
      = Except.ok (t, v) := by
  constructor
  · rfl
  · simp only [NPZReader.receive, np_load, List.lookup_cons_self, NPZFile.member,
      Except.bind]
    rfl

/-- The endpoint attributes a Communicator instance may define.  Each field is
`some repr` when the Python instance defines that attribute and `none` when
attribute lookup on it would fail. -/
structure CommAttrs where
  target : Option String
  source : Option String
deriving DecidableEq, Repr

/-- Python attribute lookup: an undefined attribute raises `AttributeError`. -/
def pyGetattr (a : Option String) : Except PyErr String :=
  match a with
  | some s => Except.ok s
  | none => Except.error PyErr.attributeError

/-- `Communicator.print_str(self, sender_not_receiver_flag)` (io.py lines
24-31): when the flag is `True` it formats `"\nSource: %s" % str(self.source)`
(reading the `source` attribute), when `False` it formats
`"\nTarget: %s" % str(self.target)` (reading the `target` attribute), and when
`None` it formats neither. -/
def Communicator.print_str (name : String) (self : CommAttrs)
    (flag : Option Bool) : Except PyErr String :=
  match flag with
  | some true => do
      let s ← pyGetattr self.source
      return "\n" ++ name ++ ":" ++ "\nSource: " ++ s
  | some false => do
      let t ← pyGetattr self.target
      return "\n" ++ name ++ ":" ++ "\nTarget: " ++ t
  | none => return "\n" ++ name ++ ":"

/-- `Sender.print_str(self)` (io.py line 57-58): calls the base `print_str`
with the flag `True`. -/
def Sender.print_str (name : String) (self : CommAttrs) : Except PyErr String :=
  Communicator.print_str name self (some true)

/-- `Receiver.print_str(self)` (io.py line 80-81): calls the base `print_str`
with the flag `False`. -/
def Receiver.print_str (name : String) (self : CommAttrs) : Except PyErr String :=
  Communicator.print_str name self (some false)

/-- The attributes of an `NPZWriter` instance: Senders declare a `target`
(io.py line 48 and 184) and no `source`. -/
def npzWriterAttrs (tgt : String) : CommAttrs := ⟨some tgt, none⟩

/-- The attributes of an `NPZReader` instance: Receivers declare a `source`
(io.py line 71 and 202) and no `target`. -/
def npzReaderAttrs (src : String) : CommAttrs := ⟨none, some src⟩

/-- Claim C4 (code bug): the flag branches of `Communicator.print_str` are
inverted, so a Sender's `print_str` reads the `source` attribute (which
Senders do not define) and a Receiver's `print_str` reads the `target`
attribute (which Receivers do not define); both raise `AttributeError` on any
concrete instance, contradicting both the claim and the classes' own
docstrings, which declare exactly one endpoint each. -/
theorem sender_print_str_reads_missing_source :
    Sender.print_str "NPZWriter" (npzWriterAttrs "/tmp/data.npz")
      = Except.error PyErr.attributeError
    ∧ Receiver.print_str "NPZReader" (npzReaderAttrs "/tmp/data.npz")
      = Except.error PyErr.attributeError
    ∧ (npzWriterAttrs "/tmp/data.npz").target = some "/tmp/data.npz"
    ∧ (npzWriterAttrs "/tmp/data.npz").source = none := by
  exact ⟨rfl, rfl, rfl, rfl⟩

/-- The value of one numpy array (flattened entries). -/
abbrev ArrVal := List ℚ

/-- The in-process heap: array cell `r` holds `cells r`; every reference below
`next` has been allocated.  Mutating one cell leaves every other reference's
value unchanged, which lets aliasing (or its absence) be stated exactly. -/
structure Heap where
  cells : Nat → ArrVal
  next : Nat

/-- Dereference: the array value a reference currently points at. -/
def Heap.read (h : Heap) (r : Nat) : ArrVal := h.cells r

/-- In-place mutation of the array behind a reference. -/
def Heap.write (h : Heap) (r : Nat) (v : ArrVal) : Heap :=
  ⟨fun r' => if r' = r then v else h.cells r', h.next⟩

/-- Allocation of a fresh array cell holding `v`; returns the new heap and the
fresh reference. -/
def Heap.alloc (h : Heap) (v : ArrVal) : Heap × Nat :=
  (⟨fun r' => if r' = h.next then v else h.cells r', h.next + 1⟩, h.next)

/-- `np.copy(x)`: allocates a fresh array holding the same value as `x` — the
result never aliases the argument. -/
def np_copy (h : Heap) (r : Nat) : Heap × Nat := h.alloc (h.read r)

/-- The four array-reference attributes of a `Transformer` instance that the
memory communicators touch: `input_time`, `input_buffer`, `output_time`,
`output_buffer`. -/
structure Transformer where
  input_time : Nat
  input_buffer : Nat
  output_time : Nat
  output_buffer : Nat
deriving DecidableEq, Repr

/-- `SetToTransformer.send(self, data)` (io.py lines 129-131):
`self.target.input_time = np.copy(data[0])`;
`self.target.input_buffer = np.copy(data[1])`. -/
def SetToTransformer.send (h : Heap) (t : Transformer) (data : Nat × Nat) :
    Heap × Transformer :=
  let c1 := np_copy h data.1
  let c2 := np_copy c1.1 data.2
  (c2.1, { t with input_time := c1.2, input_buffer := c2.2 })

/-- `GetFromTransformer.receive(self)` (io.py lines 150-151): returns
`[np.copy(self.source.output_time), np.copy(self.source.output_buffer)]`. -/
def GetFromTransformer.receive (h : Heap) (t : Transformer) :
    Heap × (Nat × Nat) :=
  let c1 := np_copy h t.output_time
  let c2 := np_copy c1.1 t.output_buffer
  (c2.1, (c1.2, c2.2))

theorem Heap.read_alloc_lt (h : Heap) (v : ArrVal) (r : Nat)
    (hr : r < h.next) : (h.alloc v).1.read r = h.read r := by
  have hne : r ≠ h.next := by omega
  simp only [Heap.alloc, Heap.read, if_neg hne]

theorem Heap.read_alloc_self (h : Heap) (v : ArrVal) :
    (h.alloc v).1.read (h.alloc v).2 = v := by
  simp [Heap.alloc, Heap.read]

theorem Heap.read_write_ne (h : Heap) (r r' : Nat) (v : ArrVal)
    (hne : r' ≠ r) : (h.write r v).read r' = h.read r' := by
  simp only [Heap.write, Heap.read, if_neg hne]

theorem Heap.next_alloc (h : Heap) (v : ArrVal) :
    (h.alloc v).1.next = h.next + 1 := rfl

theorem Heap.ref_alloc (h : Heap) (v : ArrVal) : (h.alloc v).2 = h.next := rfl

/-- The concrete heap for the C2 counterexample: a sent time array `[0,1,2]`
at reference 0, sent values `[1,2,3]` at reference 1, and empty arrays
everywhere else (in particular behind the transformer's output references 2
and 3). -/
def cexHeap : Heap :=
  ⟨fun r => if r = 0 then [0, 1, 2] else if r = 1 then [1, 2, 3] else [], 4⟩

/-- Claim C2 counterexample: on `cexHeap`, sending `(time=[0,1,2],
values=[1,2,3])` through `SetToTransformer.send` and then reading the same
transformer with `GetFromTransformer.receive` yields the (empty) output
buffers, not the pair that was sent: `send` fills `input_time`/`input_buffer`
while `receive` reads `output_time`/`output_buffer`. -/
theorem set_get_transformer_not_roundtrip :
    (let t0 : Transformer := ⟨2, 3, 2, 3⟩
     let s := SetToTransformer.send cexHeap t0 (0, 1)
     let r := GetFromTransformer.receive s.1 s.2
     (r.1.read r.2.1, r.1.read r.2.2)) = (([] : ArrVal), ([] : ArrVal))
    ∧ ((cexHeap.read 0, cexHeap.read 1) : ArrVal × ArrVal)
        ≠ (([] : ArrVal), ([] : ArrVal)) := by
  refine ⟨rfl, by decide⟩

/-- Claim C2 (amended): `SetToTransformer.send` deep-copies the sent pair into
the target's `input_time`/`input_buffer`, while `GetFromTransformer.receive`
returns deep copies of the source's `output_time`/`output_buffer` — so a
receive after a send yields the transformer's current output pair, not the
sent pair.  No array identity crosses the boundary: the stored and returned
references are fresh, mutating the received copy does not change the
transformer's buffers, and mutating the sender's original does not change
what the transformer stored. -/
theorem set_get_transformer_deep_copy (h : Heap) (t : Transformer)
    (dt dv : Nat) (hdt : dt < h.next) (hdv : dv < h.next)
    (hot : t.output_time < h.next) (hob : t.output_buffer < h.next) :
    (let s := SetToTransformer.send h t (dt, dv)
     let r := GetFromTransformer.receive s.1 s.2
     (r.1.read s.2.input_time = h.read dt
        ∧ r.1.read s.2.input_buffer = h.read dv)
     ∧ (r.1.read r.2.1 = h.read t.output_time
        ∧ r.1.read r.2.2 = h.read t.output_buffer)
     ∧ (s.2.input_time ≠ dt ∧ s.2.input_buffer ≠ dv
        ∧ r.2.1 ≠ t.output_time ∧ r.2.2 ≠ t.output_buffer)
     ∧ (∀ w, (r.1.write r.2.1 w).read t.output_time
          = r.1.read t.output_time)
     ∧ (∀ w, (r.1.write r.2.2 w).read t.output_buffer
          = r.1.read t.output_buffer)
     ∧ (∀ w, (r.1.write dt w).read s.2.input_time
          = r.1.read s.2.input_time)
     ∧ (∀ w, (r.1.write dv w).read s.2.input_buffer
          = r.1.read s.2.input_buffer)) := by
  simp only [SetToTransformer.send, GetFromTransformer.receive, np_copy,
    Heap.alloc, Heap.read, Heap.write]
  refine ⟨⟨?_, ?_⟩, ⟨?_, ?_⟩, ⟨by omega, by omega, by omega, by omega⟩,
    fun w => ?_, fun w => ?_, fun w => ?_, fun w => ?_⟩
  all_goals split_ifs <;> first | rfl | omega

/-- Claim C2 witness: the deep-copy statement instantiated on the concrete
counterexample heap, with all reference-validity hypotheses discharged by
computation. -/
theorem set_get_transformer_deep_copy_witness :
    (0 < cexHeap.next ∧ 1 < cexHeap.next ∧ 2 < cexHeap.next
      ∧ 3 < cexHeap.next)
    ∧ (let s := SetToTransformer.send cexHeap ⟨2, 3, 2, 3⟩ (0, 1)
       let r := GetFromTransformer.receive s.1 s.2
       (r.1.read s.2.input_time = cexHeap.read 0
          ∧ r.1.read s.2.input_buffer = cexHeap.read 1)
       ∧ (r.1.read r.2.1 = cexHeap.read 2
          ∧ r.1.read r.2.2 = cexHeap.read 3)
       ∧ (s.2.input_time ≠ 0 ∧ s.2.input_buffer ≠ 1
          ∧ r.2.1 ≠ 2 ∧ r.2.2 ≠ 3)
       ∧ (∀ w, (r.1.write r.2.1 w).read 2 = r.1.read 2)
       ∧ (∀ w, (r.1.write r.2.2 w).read 3 = r.1.read 3)
       ∧ (∀ w, (r.1.write 0 w).read s.2.input_time
            = r.1.read s.2.input_time)
       ∧ (∀ w, (r.1.write 1 w).read s.2.input_buffer
            = r.1.read s.2.input_buffer)) :=
  ⟨⟨by decide, by decide, by decide, by decide⟩,
    set_get_transformer_deep_copy cexHeap ⟨2, 3, 2, 3⟩ 0 1
      (by decide) (by decide) (by decide) (by decide)⟩

/-- One would-be sample cell of an ANNarchy output device's 4-D `_data`
`DataArray`, addressed by its (Time, Variable, Population, Neuron)
coordinates.  The array is represented by the list of its cells in
coordinate order; `.size` counts them.  On constructed devices the array
stays empty: `_record` never succeeds in adding to it (see
`DataArray_of_values`). -/
structure Cell where
  time : ℚ
  var : String
  pop : String
  neuron : Nat
  val : ℚ
deriving DecidableEq, Repr

/-- An ANNarchy `Monitor` as seen by the device: `monitor.get()` returns a
Python dict from recorded-variable name to the recorded values, gathered
since the previous call. -/
structure Monitor where
  buffer : List (String × List ℚ)
deriving DecidableEq, Repr

/-- `Monitor.get()` per ANNarchy semantics: returns the dict of recordings
gathered since the previous call and empties the monitor's internal buffer
(the default `keep=False` behaviour). -/
def Monitor.get (m : Monitor) : List (String × List ℚ) × Monitor := (m.buffer, ⟨[]⟩)

/-- An `ANNarchyOutputDevice` (multimeter family): the cells of its `_data`
`DataArray` (bound to an empty 4-D array in `__init__`, devices.py line 261)
and its monitors. -/
structure ANNarchyOutputDevice where
  dataAcc : List Cell
  monitors : List Monitor
deriving DecidableEq, Repr

/-- The shape of `np.array(data.values())` where `data` is the dict returned
by `monitor.get()`: under Python 3 (the file uses zero-argument `super()`),
`dict_values` is a view, not a sequence, so numpy wraps it in a
0-dimensional object array of shape `[]`.  (Under Python 2, `values()` was a
list and the result would be 3-dimensional - still not 4.) -/
def np_array_of_dict_values (vals : List (List ℚ)) : List Nat := []

/-- The `DataArray(np.array(data.values()), dims=["Time", "Variable",
"Population", "Neuron"], coords=...)` construction of devices.py lines
411-416: xarray requires the data array to have exactly as many dimensions
as the four named dims and raises `ValueError` otherwise; on success it
would yield the block of new cells (a value this program never produces,
since the array is 0-dimensional for every monitor). -/
def DataArray_of_values (vals : List (List ℚ)) : Except PyErr (List Cell) :=
  if (np_array_of_dict_values vals).length = 4 then Except.ok []
  else Except.error PyErr.valueError

/-- The loop of `ANNarchyOutputDevice._record` (devices.py lines 407-417):
for each monitor in order, drain `monitor.get()`, build the `DataArray` of
its values - which raises `ValueError`, see `DataArray_of_values` - and
merge it (`combine_by_coords`) into the accumulated `_data` cells. -/
def recordLoop : List Cell → List Monitor → Except PyErr (List Cell × List Monitor)
  | acc, [] => Except.ok (acc, [])
  | acc, m :: ms => do
      let g := m.get
      let newCells ← DataArray_of_values (g.1.map Prod.snd)
      let r ← recordLoop (acc ++ newCells) ms
      Except.ok (r.1, g.2 :: r.2)

/-- `ANNarchyOutputDevice._record` (devices.py lines 407-417): returns
normally only on devices with no monitors; with any monitor the first loop
iteration raises `ValueError` and the exception propagates to the caller. -/
def ANNarchyOutputDevice.record (d : ANNarchyOutputDevice) :
    Except PyErr ANNarchyOutputDevice := do
  let r ← recordLoop d.dataAcc d.monitors
  Except.ok ⟨r.1, r.2⟩

/-- The mapping `ANNarchyOutputDevice.events` would return: a `times` key, a
`senders` key of (population, neuron) pairs parallel to `times`, and one
entry per recorded variable. -/
structure DeviceEvents where
  times : List ℚ
  senders : List (String × Nat)
  varValues : List (String × List ℚ)
deriving DecidableEq, Repr

/-- The distinct recorded variables appearing in the device's data (the
`Variable` coordinate). -/
def record_from (dat : List Cell) : List String := (dat.map Cell.var).dedup

/-- `ANNarchyOutputDevice.events` (devices.py lines 419-431): first calls
`self._record()` - whose exception, if any, propagates - then builds the
events mapping from the (stacked) `_data`: the `times` and `senders`
coordinate sequences of the stacked cells, plus the value sequence of each
recorded variable.  Returns the mapping together with the device state after
the record pass. -/
def ANNarchyOutputDevice.events (d : ANNarchyOutputDevice) :
    Except PyErr (DeviceEvents × ANNarchyOutputDevice) := do
  let d2 ← d.record
  Except.ok
    (⟨d2.dataAcc.map Cell.time,
      d2.dataAcc.map (fun c => (c.pop, c.neuron)),
      (record_from d2.dataAcc).map
        (fun v => (v, (d2.dataAcc.filter (fun c => c.var = v)).map Cell.val))⟩,
     d2)

/-- `ANNarchyOutputDevice.number_of_events` (devices.py lines 433-436):
calls `self._record()` - whose exception, if any, propagates - and returns
`self._data.size`, the cell count of the 4-D array. -/
def ANNarchyOutputDevice.number_of_events (d : ANNarchyOutputDevice) :
    Except PyErr Nat := do
  let d2 ← d.record
  Except.ok d2.dataAcc.length

theorem events_nil_monitors (dat : List Cell) :
    ANNarchyOutputDevice.events ⟨dat, []⟩
      = Except.ok
        (⟨dat.map Cell.time, dat.map (fun c => (c.pop, c.neuron)),
          (record_from dat).map
            (fun v => (v, (dat.filter (fun c => c.var = v)).map Cell.val))⟩,
         ⟨dat, []⟩) := rfl

/-- Claim C5 (code bug): reading `events` on any monitor-bearing device
raises `ValueError` on every read - `_record` executes
`DataArray(np.array(data.values()), dims=[four dims])` and `np.array` of a
Python-3 `dict_values` view is 0-dimensional - so no results, identical or
otherwise, are ever returned there; `events` returns only on devices with no
monitors, and wherever it returns, a repeated read yields the identical
mapping and the identical device state. -/
theorem events_value_error :
    (∀ (dat : List Cell) (m : Monitor) (ms : List Monitor),
        ANNarchyOutputDevice.events ⟨dat, m :: ms⟩
          = Except.error PyErr.valueError)
    ∧ (∀ (d d2 : ANNarchyOutputDevice) (v : DeviceEvents),
        ANNarchyOutputDevice.events d = Except.ok (v, d2) →
        ANNarchyOutputDevice.events d2 = Except.ok (v, d2)) := by
  constructor
  · intro dat m ms
    rfl
  · intro d d2 v h
    obtain ⟨dat, ms⟩ := d
    cases ms with
    | nil =>
        rw [events_nil_monitors] at h
        injection h with hpair
        injection hpair with hv hd
        subst hv
        subst hd
        exact events_nil_monitors dat
    | cons m ms =>
        have hc : ANNarchyOutputDevice.events ⟨dat, m :: ms⟩
            = Except.error PyErr.valueError := rfl
        rw [hc] at h
        exact Except.noConfusion h

/-- Claim C5 witness: the where-defined half applied to the concrete
zero-monitor device, its hypothesis discharged by computation. -/
theorem events_value_error_witness :
    ANNarchyOutputDevice.events (⟨[], []⟩ : ANNarchyOutputDevice)
      = Except.ok (⟨[], [], []⟩, (⟨[], []⟩ : ANNarchyOutputDevice)) :=
  events_value_error.2 ⟨[], []⟩ ⟨[], []⟩ ⟨[], [], []⟩ rfl

/-- What `monitor.get("spike")` returns in ANNarchy: a Python dict mapping
each neuron rank to its list of spike times. -/
abbrev SpikeDict := List (Int × List ℚ)

/-- Iterating a Python dict in a `for` loop yields its keys (not its
key/value pairs). -/
def pyDictKeys (d : SpikeDict) : List Int := d.map Prod.fst

/-- Tuple-unpacking `neuron, spikes_times = key` where `key` is a Python int:
an int is not iterable, so the unpacking raises `TypeError`. -/
def pyUnpackIntPair (n : Int) : Except PyErr (Int × List ℚ) :=
  Except.error PyErr.typeError

/-- The Python builtin `tuple` called with two positional arguments, as in
`tuple(population_ind, neuron)` (devices.py line 503): `tuple` accepts at
most one (iterable) argument, so this raises `TypeError`. -/
def pyTuple2 (a b : Int) : Except PyErr (Int × Int) :=
  Except.error PyErr.typeError

/-- `dict.update({neuron: spikes_times})`: insert or overwrite one key. -/
def dictUpdate (d : SpikeDict) (k : Int) (v : List ℚ) : SpikeDict :=
  if (d.lookup k).isSome then
    d.map (fun kv => if kv.1 = k then (kv.1, v) else kv)
  else d ++ [(k, v)]

/-- The device `_data` value as Python sees it dynamically: on constructed
instances it is the 4-D xarray `DataArray` bound by
`ANNarchyOutputDevice.__init__` (devices.py line 261), which shadows the
class-level list `_data = []` of `ANNarchySpikeDetector` (line 477); only
the never-reached class-level state is a plain Python list of per-monitor
dicts. -/
inductive DeviceData where
  | dataArray (cells : List Cell)
  | pyList (dicts : List SpikeDict)
deriving DecidableEq, Repr

/-- Python `len(self._data)` (devices.py line 488): for the 4-D `DataArray`,
the length of its leading (`Time`) dimension; for a list, its element
count. -/
def pyLen : DeviceData → Nat
  | DeviceData.dataArray cells => ((cells.map Cell.time).dedup).length
  | DeviceData.pyList ds => ds.length

/-- `self._data.append(OrderedDict())` (devices.py line 489): Python lists
have `append`; an xarray `DataArray` has no such attribute, so on a
constructed instance the call raises `AttributeError`. -/
def pyAppend (d : DeviceData) (dict : SpikeDict) : Except PyErr DeviceData :=
  match d with
  | DeviceData.pyList ds => Except.ok (DeviceData.pyList (ds ++ [dict]))
  | DeviceData.dataArray _ => Except.error PyErr.attributeError

/-- `self._data[i_m].update({neuron: spikes_times})` (devices.py line 491):
updates the `i_m`-th per-monitor dict when `_data` is a list of dicts; on
the `DataArray` (where line 489 has already raised) the indexed slice has no
`update` either. -/
def pyUpdateAt (d : DeviceData) (i : Nat) (k : Int) (v : List ℚ) :
    Except PyErr DeviceData :=
  match d with
  | DeviceData.pyList ds =>
      if i < ds.length then
        Except.ok (DeviceData.pyList (ds.set i (dictUpdate (ds.getD i []) k v)))
      else Except.error PyErr.indexError
  | DeviceData.dataArray _ => Except.error PyErr.attributeError

/-- The loop body of `ANNarchySpikeDetector._record` (devices.py lines
487-491) at monitor index `i_m`: appends a fresh per-monitor dict when
`len(self._data) <= i_m` - an `AttributeError` on constructed instances -
and then iterates `monitor.get("spike")`, a dict yielding int keys, whose
tuple-unpacking would raise `TypeError` on the first key. -/
def spikeRecordBody (st : DeviceData × Nat) (spikeDict : SpikeDict) :
    Except PyErr (DeviceData × Nat) := do
  let dat1 ← if pyLen st.1 ≤ st.2 then pyAppend st.1 [] else Except.ok st.1
  let dat2 ← (pyDictKeys spikeDict).foldlM
      (fun acc key => do
        let p ← pyUnpackIntPair key
        pyUpdateAt acc st.2 p.1 p.2)
      dat1
  Except.ok (dat2, st.2 + 1)

/-- `ANNarchySpikeDetector._record` (devices.py lines 486-491) on a
constructed detector: `dat` is the instance's `_data` (the `DataArray` from
`__init__`) and `monitors` holds each monitor's pending `get("spike")`
dict. -/
def ANNarchySpikeDetector.record (dat : DeviceData)
    (monitors : List SpikeDict) : Except PyErr DeviceData := do
  let r ← monitors.foldlM spikeRecordBody (dat, 0)
  Except.ok r.1

/-- Reading `self.data` (devices.py line 501): no `data` attribute is
assigned on the detector, so the access raises `AttributeError`.  On
constructed instances the read is never reached: `self._record()` raises
first whenever a monitor exists, and with no monitors the enclosing loop has
no iterations. -/
def pySelfData : Except PyErr SpikeDict := Except.error PyErr.attributeError

/-- `ANNarchySpikeDetector.events` (devices.py lines 493-504): calls
`self._record()` - whose exception propagates - then loops over the monitors
(paired with their resolved population indices), reading `self.data[i_m]`
and building `senders` with `[tuple(population_ind, neuron)] *
len(spikes_times)`. -/
def ANNarchySpikeDetector.events (dat : DeviceData) (popInds : List Int)
    (monitors : List SpikeDict) : Except PyErr (List ℚ × List (Int × Int)) := do
  let _dat2 ← ANNarchySpikeDetector.record dat monitors
  popInds.foldlM
    (fun acc popInd => do
      let entries ← pySelfData
      entries.foldlM
        (fun acc2 entry => do
          let s ← pyTuple2 popInd entry.1
          Except.ok (acc2.1 ++ entry.2,
            acc2.2 ++ List.replicate entry.2.length s))
        acc)
    ([], [])

/-- Python attribute access `._data.size`: `DataArray.size` is the cell
count; a Python `list` has no attribute `size`, so the access would raise
`AttributeError` in the (never-constructed) class-level state. -/
def pySizeAttr : DeviceData → Except PyErr Nat
  | DeviceData.dataArray cells => Except.ok cells.length
  | DeviceData.pyList _ => Except.error PyErr.attributeError

/-- `ANNarchySpikeDetector`'s inherited `number_of_events` (devices.py lines
433-436): runs the overridden `_record` - whose exception propagates - and
then evaluates `self._data.size`. -/
def ANNarchySpikeDetector.number_of_events (dat : DeviceData)
    (monitors : List SpikeDict) : Except PyErr Nat := do
  let dat2 ← ANNarchySpikeDetector.record dat monitors
  pySizeAttr dat2

/-- Claim C6 (code bug): no monitor-bearing output device returns the
claimed events mapping.  A constructed spike detector raises
`AttributeError` at `self._data.append` (line 489, its `_data` being the
`DataArray` bound at line 261) before the dict-key unpacking (line 490), the
undefined `self.data` read (line 501) or the two-argument
`tuple(population_ind, neuron)` call (line 503) could raise in turn; a
multimeter-family device raises `ValueError` in `_record`.  Evaluated at
population index 0 with neuron 1 spiking at t = 3, and at one monitor with
one recorded variable. -/
theorem spike_detector_events_attribute_error :
    ANNarchySpikeDetector.events (DeviceData.dataArray []) [0] [[(1, [3])]]
      = Except.error PyErr.attributeError
    ∧ ANNarchyOutputDevice.events ⟨[], [⟨[("v", [1])]⟩]⟩
      = Except.error PyErr.valueError := by
  exact ⟨rfl, rfl⟩

/-- Claim C7 (code bug): `number_of_events` agrees with the length of the
`times` sequence wherever it returns at all - only on devices with no
monitors, where both are the `_data` cell count (zero on constructed
instances) - but on every monitor-bearing device the `_record` it first
performs raises (`ValueError` for the multimeter family, `AttributeError`
for the constructed spike detector), so no total count is returned. -/
theorem number_of_events_error_paths :
    (∀ dat : List Cell,
        ANNarchyOutputDevice.number_of_events ⟨dat, []⟩
          = Except.ok ((dat.map Cell.time).length))
    ∧ (∀ (dat : List Cell) (m : Monitor) (ms : List Monitor),
        ANNarchyOutputDevice.number_of_events ⟨dat, m :: ms⟩
          = Except.error PyErr.valueError)
    ∧ ANNarchySpikeDetector.number_of_events (DeviceData.dataArray []) []
        = Except.ok 0
    ∧ ANNarchySpikeDetector.number_of_events (DeviceData.dataArray [])
        [[(1, [3])]] = Except.error PyErr.attributeError := by
  refine ⟨?_, ?_, rfl, rfl⟩
  · intro dat
    rw [List.length_map]
    rfl
  · intro dat m ms
    rfl

/-- The posterior-samples mapping the loaders aggregate: an ordered dict from
sample keys to the list of per-run leading values collected so far. -/
abbrev SamplesDict := List (String × List ℚ)

/-- Python `val[0]`: the first element of a loaded value sequence; an empty
sequence raises `IndexError`. -/
def pyIndex0 (l : List ℚ) : Except PyErr ℚ :=
  match l with
  | [] => Except.error PyErr.indexError
  | x :: _ => Except.ok x

/-- `all_samples[key].append(v)` after creating `all_samples[key] = []` when
the key is new (sbi_script.py lines 299-305). -/
def dictAppendAt (d : SamplesDict) (k : String) (v : ℚ) : SamplesDict :=
  if (d.lookup k).isSome then
    d.map (fun kv => if kv.1 = k then (kv.1, kv.2 ++ [v]) else kv)
  else d ++ [(k, [v])]

/-- `add_posterior_samples_iR(all_samples, samples_iR)` (sbi_script.py lines
299-305): for every key except `"G"`, appends `val[0]` to the accumulated
list for that key. -/
def add_posterior_samples_iR (allS : SamplesDict) (siR : SamplesDict) :
    Except PyErr SamplesDict :=
  siR.foldlM
    (fun acc kv =>
      if kv.1 = "G" then pure acc
      else do
        let v0 ← pyIndex0 kv.2
        pure (dictAppendAt acc kv.1 v0))
    allS

/-- `load_posterior_samples_all_runs(iG, runs, ...)` (sbi_script.py lines
308-320): iterates the run indices; each loop body loads that run's samples
and merges them, and any exception it raises is caught by the surrounding
`try`/`except`, which warns and continues with the next run.  The per-run
loader is abstracted as the function argument `load`. -/
def load_posterior_samples_all_runs (load : Nat → Except PyErr SamplesDict)
    (runs : List Nat) : SamplesDict :=
  runs.foldl
    (fun samples iR =>
      match (do
          let siR ← load iR
          add_posterior_samples_iR samples siR : Except PyErr SamplesDict) with
      | Except.ok s => s
      | Except.error _ => samples)
    []

/-- Evaluating the bare name `G` inside `load_posterior_samples_all_Gs`: the
function binds `iGs`, `runs`, `label`, `config`, `samples` and the loop
variable `iG`, but never `G`, so the lookup raises `NameError`. -/
def lookupLocalG : Except PyErr ℚ := Except.error PyErr.nameError

/-- `load_posterior_samples_all_Gs(iGs, runs, ...)` (sbi_script.py lines
323-336): for each `iG`, the `try` body evaluates the right-hand side (the
per-G aggregation over all runs, which is total) and then executes the
assignment `samples[G] = ...`, whose key expression is the undefined name
`G`; the resulting `NameError` is caught by the same `except` branch, which
warns and continues.  The per-(G, run) loader is abstracted as `load`. -/
def load_posterior_samples_all_Gs
    (load : Nat → Nat → Except PyErr SamplesDict)
    (runs : List Nat) (iGs : List Nat) : List (ℚ × SamplesDict) :=
  iGs.foldl
    (fun samples iG =>
      match (do
          let v := load_posterior_samples_all_runs (load iG) runs
          let g ← lookupLocalG
          pure (samples ++ [(g, v)]) : Except PyErr (List (ℚ × SamplesDict))) with
      | Except.ok s => s
      | Except.error _ => samples)
    []

theorem all_Gs_body_drops (samples : List (ℚ × SamplesDict))
    (load : Nat → Nat → Except PyErr SamplesDict) (runs : List Nat) (iG : Nat) :
    (match (do
        let v := load_posterior_samples_all_runs (load iG) runs
        let g ← lookupLocalG
        pure (samples ++ [(g, v)]) : Except PyErr (List (ℚ × SamplesDict))) with
      | Except.ok s => s
      | Except.error _ => samples) = samples := rfl

/-- Claim C9 (code bug): `load_posterior_samples_all_runs` does catch per-run
failures and aggregate exactly the successful runs (dropping a failed run
index changes nothing), but `load_posterior_samples_all_Gs` always returns
the empty mapping — even when every load succeeds — because the undefined
name `G` in `samples[G] = ...` raises a `NameError` that its own
`try`/`except` catches, discarding the loaded samples of every G. -/
theorem all_Gs_always_empty :
    (∀ (load : Nat → Nat → Except PyErr SamplesDict) (runs iGs : List Nat),
        load_posterior_samples_all_Gs load runs iGs = [])
    ∧ (∀ (load : Nat → Except PyErr SamplesDict) (rs1 rs2 : List Nat)
        (r : Nat) (e : PyErr), load r = Except.error e →
        load_posterior_samples_all_runs load (rs1 ++ r :: rs2)
          = load_posterior_samples_all_runs load (rs1 ++ rs2)) := by
  constructor
  · intro load runs iGs
    unfold load_posterior_samples_all_Gs
    induction iGs with
    | nil => rfl
    | cons iG iGs ih =>
        rw [List.foldl_cons, all_Gs_body_drops]
        exact ih
  · intro load rs1 rs2 r e he
    unfold load_posterior_samples_all_runs
    rw [List.foldl_append, List.foldl_append, List.foldl_cons]
    have hbody : ∀ s : SamplesDict,
        (match (do
            let siR ← load r
            add_posterior_samples_iR s siR : Except PyErr SamplesDict) with
          | Except.ok s2 => s2
          | Except.error _ => s) = s := by
      intro s
      rw [he]
      rfl
    rw [hbody]

/-- Claim C9 witness: `all_Gs` evaluated with a loader that succeeds with a
non-empty samples dict for every (G, run) pair still returns the empty
aggregation, and a failing run index (here run 1 with an `IOError`) is
skipped by `all_runs` exactly as if it were absent from the run list. -/
theorem all_Gs_always_empty_witness :
    load_posterior_samples_all_Gs (fun _ _ => Except.ok [("key", [1])]) [0] [0] = []
    ∧ load_posterior_samples_all_runs (fun _ => Except.error PyErr.ioError)
        ([] ++ 1 :: [0])
      = load_posterior_samples_all_runs (fun _ => Except.error PyErr.ioError)
        ([] ++ [0]) :=
  ⟨all_Gs_always_empty.1 (fun _ _ => Except.ok [("key", [1])]) [0] [0],
    all_Gs_always_empty.2 (fun _ => Except.error PyErr.ioError) [] [0] 1
      PyErr.ioError rfl⟩

/-- Helper for Python extended slicing `l[b::N]`: `sliceEveryAux N k l` keeps
the head when the countdown `k` is zero (restarting it at `N - 1`) and skips
it otherwise, so starting from `k = 0` it keeps every `N`-th element. -/
def sliceEveryAux {α : Type*} (N : Nat) : Nat → List α → List α
  | _, [] => []
  | 0, x :: xs => x :: sliceEveryAux N (N - 1) xs
  | k + 1, _ :: xs => sliceEveryAux N k xs

/-- Python `l[b::N]` for step `N ≥ 1`: every `N`-th element of `l` starting
at index `b`. -/
def pySliceFrom {α : Type*} (l : List α) (b N : Nat) : List α :=
  sliceEveryAux N 0 (l.drop b)

/-- `priors_samples_per_batch` (sbi_script.py lines 56-66): the loop
`for iB in range(config.N_SIM_BATCHES):
  batch_samples.append(priors_samples[iB::config.N_SIM_BATCHES])`,
returning the accumulated list of strided batches (rows of the samples
tensor are list elements; the file-writing side effect is irrelevant to the
returned value). -/
def priors_samples_per_batch {α : Type*} (l : List α) (N : Nat) : List (List α) :=
  (List.range N).foldl (fun acc iB => acc ++ [pySliceFrom l iB N]) []

theorem sliceEveryAux_eq_drop {α : Type*} (N : Nat) :
    ∀ (xs : List α) (k : Nat), sliceEveryAux N k xs = sliceEveryAux N 0 (xs.drop k)
  | [], k => by cases k <;> rfl
  | x :: xs, 0 => rfl
  | x :: xs, k + 1 => by
      rw [List.drop_succ_cons]
      exact sliceEveryAux_eq_drop N xs k

theorem foldl_append_singleton_eq_map {α β : Type*} (f : β → α) :
    ∀ (bs : List β) (init : List α),
      bs.foldl (fun acc b => acc ++ [f b]) init = init ++ bs.map f
  | [], init => by simp
  | b :: bs, init => by
      rw [List.foldl_cons, foldl_append_singleton_eq_map f bs (init ++ [f b])]
      simp

theorem flatten_map_nil {α β : Type*} :
    ∀ L : List β, (L.map (fun _ => ([] : List α))).flatten = []
  | [] => rfl
  | b :: L => by
      rw [List.map_cons, List.flatten_cons, List.nil_append]
      exact flatten_map_nil L

theorem flatten_map_getElem?_range {α : Type*} :
    ∀ (t : List α) (n : Nat), t.length ≤ n →
      ((List.range n).map (fun b => (t[b]?).toList)).flatten = t
  | [], n, _ => by
      have h : ∀ b ∈ List.range n, (([] : List α)[b]?).toList = [] := by
        intro b _; rfl
      rw [List.map_congr_left h, flatten_map_nil]
  | x :: xs, n, h => by
      cases n with
      | zero => exact absurd h (by simp)
      | succ m =>
          rw [List.range_succ_eq_map, List.map_cons, List.map_map,
            List.flatten_cons]
          have h2 : ((fun b => (((x :: xs)[b]?).toList)) ∘ Nat.succ)
              = fun b => ((xs[b]?).toList) := by
            funext b
            simp [Function.comp]
          rw [h2, flatten_map_getElem?_range xs m (Nat.le_of_succ_le_succ h)]
          simp

theorem flatten_map_append_perm {α β : Type*} (f g : β → List α) :
    ∀ bs : List β,
      ((bs.map (fun b => f b ++ g b)).flatten).Perm
        ((bs.map f).flatten ++ (bs.map g).flatten)
  | [] => by simp
  | b :: bs => by
      simp only [List.map_cons, List.flatten_cons]
      have ih := flatten_map_append_perm f g bs
      have h1 : ((g b) ++ ((bs.map f).flatten ++ (bs.map g).flatten)).Perm
          ((bs.map f).flatten ++ (g b ++ (bs.map g).flatten)) := by
        rw [← List.append_assoc, ← List.append_assoc]
        exact List.perm_append_comm.append_right _
      refine (ih.append_left (f b ++ g b)).trans ?_
      rw [List.append_assoc, List.append_assoc]
      exact h1.append_left (f b)

theorem pySliceFrom_step {α : Type*} (l : List α) (b N : Nat) (hb : b < N) :
    pySliceFrom l b N = ((l[b]?).toList) ++ pySliceFrom (l.drop N) b N := by
  by_cases hlen : b < l.length
  · have hdrop : l.drop b = l[b] :: l.drop (b + 1) :=
      List.drop_eq_getElem_cons hlen
    have harith : b + 1 + (N - 1) = N + b := by omega
    rw [pySliceFrom, hdrop]
    show l[b] :: sliceEveryAux N (N - 1) (l.drop (b + 1))
        = ((l[b]?).toList) ++ pySliceFrom (l.drop N) b N
    rw [sliceEveryAux_eq_drop, List.drop_drop, harith,
      List.getElem?_eq_getElem hlen, pySliceFrom, List.drop_drop]
    rfl
  · have hle : l.length ≤ b := Nat.le_of_not_lt hlen
    have h1 : l.drop b = [] := List.drop_of_length_le hle
    have h2 : (l.drop N).drop b = [] := by
      rw [List.drop_drop]
      exact List.drop_of_length_le (by omega)
    rw [pySliceFrom, h1, pySliceFrom, h2, List.getElem?_eq_none hle]
    rfl

theorem flatten_batches_perm {α : Type*} (N : Nat) (hN : 1 ≤ N) :
    ∀ (n : Nat) (l : List α), l.length ≤ n →
      (((List.range N).map (fun b => pySliceFrom l b N)).flatten).Perm l
  | 0, l, hlen => by
      have hl : l = [] := List.length_eq_zero.mp (Nat.le_zero.mp hlen)
      subst hl
      have h : ∀ b ∈ List.range N, pySliceFrom ([] : List α) b N = [] := by
        intro b _
        rw [pySliceFrom, List.drop_nil]
        rfl
      rw [List.map_congr_left h, flatten_map_nil]
  | n + 1, l, hlen => by
      have key : ∀ b ∈ List.range N,
          pySliceFrom l b N = ((l[b]?).toList) ++ pySliceFrom (l.drop N) b N :=
        fun b hb => pySliceFrom_step l b N (List.mem_range.mp hb)
      rw [List.map_congr_left key]
      refine (flatten_map_append_perm _ _ _).trans ?_
      have hF : ((List.range N).map (fun b => ((l[b]?).toList))).flatten
          = l.take N := by
        have hpt : ∀ b ∈ List.range N, ((l[b]?).toList)
            = (((l.take N)[b]?).toList) := by
          intro b hb
          rw [List.getElem?_take_of_lt (List.mem_range.mp hb)]
        rw [List.map_congr_left hpt,
          flatten_map_getElem?_range (l.take N) N (List.length_take_le N l)]
      have hG := flatten_batches_perm N hN n (l.drop N)
        (by rw [List.length_drop]; omega)
      rw [hF]
      have hfin := hG.append_left (l.take N)
      rw [List.take_append_drop] at hfin
      exact hfin

/-- Claim C10 (confirmed): `priors_samples_per_batch` returns exactly the `N`
strided slices `s[0::N], ..., s[N-1::N]`; their concatenation is a
permutation of the rows of `s` (so the batches partition the samples — no
row lost or duplicated) and the total row count is preserved. -/
theorem priors_samples_per_batch_partition {α : Type*} (l : List α) (N : Nat)
    (hN : 1 ≤ N) :
    priors_samples_per_batch l N
      = (List.range N).map (fun b => pySliceFrom l b N)
    ∧ ((priors_samples_per_batch l N).flatten).Perm l
    ∧ ((priors_samples_per_batch l N).map List.length).sum = l.length := by
  have hfold : priors_samples_per_batch l N
      = (List.range N).map (fun b => pySliceFrom l b N) := by
    rw [priors_samples_per_batch,
      foldl_append_singleton_eq_map (fun b => pySliceFrom l b N) (List.range N) [],
      List.nil_append]
  have hperm := flatten_batches_perm N hN l.length l (Nat.le_refl _)
  refine ⟨hfold, ?_, ?_⟩
  · rw [hfold]
    exact hperm
  · rw [hfold, ← List.length_flatten, ← hfold]
    rw [hfold]
    exact hperm.length_eq

/-- Claim C10 witness: the partition statement evaluated at the concrete
sample list `[0, 1, 2, 3, 4]` with `N_SIM_BATCHES = 2`, whose batches are
`[0, 2, 4]` and `[1, 3]`. -/
theorem priors_samples_per_batch_partition_witness :
    1 ≤ 2
    ∧ (priors_samples_per_batch ([0, 1, 2, 3, 4] : List Nat) 2
        = (List.range 2).map (fun b => pySliceFrom [0, 1, 2, 3, 4] b 2)
      ∧ ((priors_samples_per_batch ([0, 1, 2, 3, 4] : List Nat) 2).flatten).Perm
          [0, 1, 2, 3, 4]
      ∧ ((priors_samples_per_batch ([0, 1, 2, 3, 4] : List Nat) 2).map
          List.length).sum = 5) :=
  ⟨by decide,
    priors_samples_per_batch_partition ([0, 1, 2, 3, 4] : List Nat) 2 (by decide)⟩
